import Mathlib

/-!
Shallow embedding of the credential-bridging core of the eksutil repository
(package `auth` in `pkg/auth/auth.go`, plus the near-identical handler copy in
`main.go`), together with theorems settling the spec claims about it.

Conventions of the embedding:
* Go strings are Lean `String`s; byte slices are `List Nat` with each byte `< 256`.
* Go pointers that the code dereferences are `Option` values; dereferencing
  `none` is a nil-pointer panic, modelled by the `ExecResult.panicked` outcome.
* Remote AWS capabilities (EKS DescribeCluster, STS GetCallerIdentity, the
  token presigner) are passed in as explicit arguments, mirroring how the Go
  code reaches them through the session object.
* The `clientcmdapi.Config` value is heap-allocated in Go and shared through a
  pointer stored in `ClientConfig.Client`; we model the heap as a list of
  config cells indexed by `Nat` addresses so that pointer aliasing is visible.
-/

/-! ## Go `strings.Split` on the separator "/" and `getUsername` -/

/-- Accumulator-style model of Go `strings.Split(s, "/")` on a list of
characters: chunks are cut at every `'/'`, empty chunks included, and the
result is always non-empty (Go returns `[""]` for the empty string). -/
def splitSlashAux : List Char → List Char → List (List Char)
  | [], acc => [acc.reverse]
  | c :: rest, acc =>
    if c = '/' then acc.reverse :: splitSlashAux rest []
    else splitSlashAux rest (c :: acc)

/-- Go `strings.Split(s, "/")` on the character list of `s`. -/
def splitSlash (cs : List Char) : List (List Char) :=
  splitSlashAux cs []

/-- Spec-side rendering of "the final segment after splitting the ARN on '/'":
the suffix of the character list strictly after the last `'/'` (the whole list
when no `'/'` occurs). -/
def lastSegment : List Char → List Char
  | [] => []
  | c :: rest =>
    if '/' ∈ rest then lastSegment rest
    else if c = '/' then rest
    else c :: rest

/-- `func getUsername(iamRoleARN string) string` from `pkg/auth/auth.go`:
split the ARN on "/", return the last part when the split produced more than
one part, otherwise the literal `"iam-root-account"`. -/
def getUsername (iamRoleARN : String) : String :=
  let usernameParts := splitSlash iamRoleARN.toList
  if 1 < usernameParts.length then String.mk (usernameParts.getLastD [])
  else "iam-root-account"

theorem splitSlashAux_cons_slash (rest acc : List Char) :
    splitSlashAux ('/' :: rest) acc = acc.reverse :: splitSlashAux rest [] := by
  simp [splitSlashAux]

theorem splitSlashAux_cons_ne {c : Char} (hc : c ≠ '/') (rest acc : List Char) :
    splitSlashAux (c :: rest) acc = splitSlashAux rest (c :: acc) := by
  simp [splitSlashAux, hc]

theorem lastSegment_cons (c : Char) (rest : List Char) :
    lastSegment (c :: rest) =
      if '/' ∈ rest then lastSegment rest
      else if c = '/' then rest else c :: rest := rfl

theorem splitSlashAux_ne_nil (cs acc : List Char) : splitSlashAux cs acc ≠ [] := by
  induction cs generalizing acc with
  | nil => simp [splitSlashAux]
  | cons c rest ih =>
    by_cases hc : c = '/'
    · subst hc
      rw [splitSlashAux_cons_slash]
      simp
    · rw [splitSlashAux_cons_ne hc]
      exact ih (c :: acc)

theorem getLastD_of_ne_nil {α : Type} (l : List α) (h : l ≠ []) (d1 d2 : α) :
    l.getLastD d1 = l.getLastD d2 := by
  cases l with
  | nil => exact absurd rfl h
  | cons a l => rw [List.getLastD_cons, List.getLastD_cons]

theorem splitSlashAux_length (cs acc : List Char) :
    1 < (splitSlashAux cs acc).length ↔ '/' ∈ cs := by
  induction cs generalizing acc with
  | nil => simp [splitSlashAux]
  | cons c rest ih =>
    by_cases hc : c = '/'
    · subst hc
      have hpos : 0 < (splitSlashAux rest []).length :=
        List.length_pos.mpr (splitSlashAux_ne_nil rest [])
      rw [splitSlashAux_cons_slash]
      constructor
      · intro _; exact List.mem_cons_self _ _
      · intro _
        simp only [List.length_cons]
        omega
    · rw [splitSlashAux_cons_ne hc, ih, List.mem_cons]
      constructor
      · intro h; exact Or.inr h
      · rintro (h | h)
        · exact absurd h.symm hc
        · exact h

theorem splitSlashAux_getLastD (cs acc : List Char) :
    (splitSlashAux cs acc).getLastD [] =
      if '/' ∈ cs then lastSegment cs else acc.reverse ++ cs := by
  induction cs generalizing acc with
  | nil => simp [splitSlashAux]
  | cons c rest ih =>
    by_cases hc : c = '/'
    · subst hc
      have hne := splitSlashAux_ne_nil rest []
      rw [splitSlashAux_cons_slash, List.getLastD_cons,
        getLastD_of_ne_nil _ hne acc.reverse [], ih [],
        if_pos (List.mem_cons_self '/' rest), lastSegment_cons]
      by_cases hm : '/' ∈ rest
      · rw [if_pos hm, if_pos hm]
      · rw [if_neg hm, if_neg hm, if_pos rfl]
        simp
    · rw [splitSlashAux_cons_ne hc, ih (c :: acc)]
      by_cases hm : '/' ∈ rest
      · have hmc : '/' ∈ c :: rest := List.mem_cons_of_mem c hm
        rw [if_pos hm, if_pos hmc, lastSegment_cons, if_pos hm]
      · have hmc : ¬ ('/' ∈ c :: rest) := by
          rw [List.mem_cons]
          rintro (h | h)
          · exact hc h.symm
          · exact hm h
        rw [if_neg hm, if_neg hmc]
        simp

theorem lastSegment_concat_slash (pre : List Char) :
    lastSegment (pre ++ ['/']) = [] := by
  induction pre with
  | nil => simp [lastSegment]
  | cons c rest ih =>
    have hm : '/' ∈ rest ++ ['/'] := by simp
    rw [List.cons_append, lastSegment_cons, if_pos hm]
    exact ih

/-! ## Go errors and execution outcomes -/

/-- A Go `error` value, carrying its message. `errors.New` and the non-nil
results of `errors.Wrap` from `github.com/pkg/errors` are values of this type. -/
structure GoError where
  msg : String
deriving Repr, DecidableEq

/-- `errors.Wrap(err, message)` from `github.com/pkg/errors`: always a non-nil
error whose message is `message ++ ": " ++ err.msg`. -/
def errorsWrap (e : GoError) (message : String) : GoError :=
  { msg := message ++ ": " ++ e.msg }

/-- Outcome of running a piece of Go code: a normal value, a returned non-nil
error, or a runtime panic (nil-pointer dereference). -/
inductive ExecResult (α : Type) where
  | ok (val : α)
  | err (e : GoError)
  | panicked
deriving Repr, DecidableEq

/-! ## Go `encoding/base64`

`base64.StdEncoding.DecodeString` (standard alphabet, padding required,
newlines skipped) and `base64.RawURLEncoding.EncodeToString` (URL-safe
alphabet, no padding), as used by `NewClientConfig` and by the token
generator described in spec §4.3. -/

/-- Value of a character in the standard base64 alphabet, `none` if the
character is not in the alphabet. -/
def b64Val (ch : Char) : Option Nat :=
  if 'A' ≤ ch ∧ ch ≤ 'Z' then some (ch.toNat - 65)
  else if 'a' ≤ ch ∧ ch ≤ 'z' then some (ch.toNat - 97 + 26)
  else if '0' ≤ ch ∧ ch ≤ '9' then some (ch.toNat - 48 + 52)
  else if ch = '+' then some 62
  else if ch = '/' then some 63
  else none

/-- Decode base64 quantum groups of four characters, honouring `=` padding in
the final group only; any other shape is a `CorruptInputError`. -/
def b64DecodeGroups : List Char → Except GoError (List Nat)
  | [] => .ok []
  | c1 :: c2 :: c3 :: c4 :: rest =>
    match b64Val c1, b64Val c2 with
    | some v1, some v2 =>
      if c3 = '=' then
        if c4 = '=' ∧ rest = [] then .ok [v1 * 4 + v2 / 16]
        else .error { msg := "illegal base64 data" }
      else
        match b64Val c3 with
        | some v3 =>
          if c4 = '=' then
            if rest = [] then .ok [v1 * 4 + v2 / 16, v2 % 16 * 16 + v3 / 4]
            else .error { msg := "illegal base64 data" }
          else
            match b64Val c4 with
            | some v4 =>
              match b64DecodeGroups rest with
              | .ok bs =>
                .ok ((v1 * 4 + v2 / 16) :: (v2 % 16 * 16 + v3 / 4) ::
                  (v3 % 4 * 64 + v4) :: bs)
              | .error e => .error e
            | none => .error { msg := "illegal base64 data" }
        | none => .error { msg := "illegal base64 data" }
    | _, _ => .error { msg := "illegal base64 data" }
  | _ => .error { msg := "illegal base64 data" }

/-- Go `base64.StdEncoding.DecodeString`: skips newline characters, then
decodes the padded standard-alphabet base64 text to raw bytes. -/
def base64StdDecode (s : String) : Except GoError (List Nat) :=
  b64DecodeGroups (s.toList.filter (fun ch => ch ≠ '\n' ∧ ch ≠ '\r'))

/-- Character of a 6-bit value in the URL-safe base64 alphabet
(`A-Z`, `a-z`, `0-9`, `-`, `_`). -/
def b64urlChar (n : Nat) : Char :=
  if n < 26 then Char.ofNat (65 + n)
  else if n < 52 then Char.ofNat (97 + n - 26)
  else if n < 62 then Char.ofNat (48 + n - 52)
  else if n = 62 then '-'
  else '_'

/-- Go `base64.RawURLEncoding.EncodeToString` on a byte list: URL-safe
alphabet, no `=` padding. -/
def base64RawURLEncode : List Nat → List Char
  | [] => []
  | [b1] => [b64urlChar (b1 / 4), b64urlChar (b1 % 4 * 16)]
  | [b1, b2] =>
    [b64urlChar (b1 / 4), b64urlChar (b1 % 4 * 16 + b2 / 16),
     b64urlChar (b2 % 16 * 4)]
  | b1 :: b2 :: b3 :: rest =>
    b64urlChar (b1 / 4) :: b64urlChar (b1 % 4 * 16 + b2 / 16) ::
      b64urlChar (b2 % 16 * 4 + b3 / 64) :: b64urlChar (b3 % 64) ::
      base64RawURLEncode rest

/-- Membership in the URL-safe base64 alphabet. -/
def isBase64URLChar (ch : Char) : Bool :=
  ('A' ≤ ch ∧ ch ≤ 'Z') ∨ ('a' ≤ ch ∧ ch ≤ 'z') ∨
    ('0' ≤ ch ∧ ch ≤ '9') ∨ ch = '-' ∨ ch = '_'

theorem b64urlChar_valid : ∀ n, n < 64 → isBase64URLChar (b64urlChar n) = true := by
  decide

theorem base64RawURLEncode_all (bs : List Nat) (hb : ∀ b ∈ bs, b < 256) :
    (base64RawURLEncode bs).all isBase64URLChar = true := by
  induction bs using base64RawURLEncode.induct with
  | case1 => rfl
  | case2 b1 =>
    have h1 : b1 < 256 := hb b1 (by simp)
    simp only [base64RawURLEncode, List.all_cons, List.all_nil, Bool.and_true,
      Bool.and_eq_true]
    exact ⟨b64urlChar_valid _ (by omega), b64urlChar_valid _ (by omega)⟩
  | case3 b1 b2 =>
    have h1 : b1 < 256 := hb b1 (by simp)
    have h2 : b2 < 256 := hb b2 (by simp)
    simp only [base64RawURLEncode, List.all_cons, List.all_nil, Bool.and_true,
      Bool.and_eq_true]
    exact ⟨b64urlChar_valid _ (by omega), b64urlChar_valid _ (by omega),
      b64urlChar_valid _ (by omega)⟩
  | case4 b1 b2 b3 rest ih =>
    have h1 : b1 < 256 := hb b1 (by simp)
    have h2 : b2 < 256 := hb b2 (by simp)
    have h3 : b3 < 256 := hb b3 (by simp)
    have hrest : ∀ b ∈ rest, b < 256 := fun b hbm => hb b (by simp [hbm])
    simp only [base64RawURLEncode, List.all_cons, Bool.and_eq_true]
    exact ⟨b64urlChar_valid _ (by omega), b64urlChar_valid _ (by omega),
      b64urlChar_valid _ (by omega), b64urlChar_valid _ (by omega), ih hrest⟩

theorem isBase64URLChar_ne_pad {ch : Char} (h : isBase64URLChar ch = true) :
    ch ≠ '=' := by
  intro he
  subst he
  simp [isBase64URLChar] at h

/-! ## AWS SDK response shapes (the fields the code dereferences) -/

namespace eks

/-- `eks.Certificate`: the `Data` field is a `*string`. -/
structure Certificate where
  Data : Option String
deriving Repr, DecidableEq

/-- `eks.Cluster`: `Endpoint` is a `*string`, `CertificateAuthority` a
`*Certificate`; only the fields the repository reads are modelled. -/
structure Cluster where
  Endpoint : Option String
  CertificateAuthority : Option Certificate
deriving Repr, DecidableEq

/-- `eks.DescribeClusterOutput`: `Cluster` is a `*Cluster`. On an error return
the SDK still hands back an allocated output whose `Cluster` field is nil. -/
structure DescribeClusterOutput where
  Cluster : Option Cluster
deriving Repr, DecidableEq

end eks

namespace sts

/-- `sts.GetCallerIdentityOutput`: the `Arn` field is a `*string`. -/
structure GetCallerIdentityOutput where
  Arn : Option String
deriving Repr, DecidableEq

end sts

/-- The describe-cluster capability: what `svc.DescribeCluster` answers for a
given cluster name (the session-backed remote call, passed explicitly). -/
abbrev DescribeCapability : Type :=
  String → Except GoError eks.DescribeClusterOutput

/-! ## `ClusterConfig` and the two `loadConfig` variants -/

/-- `type ClusterConfig struct` from `pkg/auth/auth.go`. The `Session` field
is the handle through which the remote capabilities are reached; it is
modelled by passing the capabilities as explicit arguments instead. -/
structure ClusterConfig where
  ClusterName : String
  MasterEndpoint : String
  CertificateAuthorityData : String
deriving Repr, DecidableEq

/-- The two assignments
`c.MasterEndpoint = *result.Cluster.Endpoint` and
`c.CertificateAuthorityData = *result.Cluster.CertificateAuthority.Data`
shared by both `loadConfig` copies: each `*` dereference of a nil pointer
panics, in evaluation order. -/
def derefClusterFields (c : ClusterConfig) (result : eks.DescribeClusterOutput) :
    ExecResult ClusterConfig :=
  match result.Cluster with
  | none => .panicked
  | some cl =>
    match cl.Endpoint with
    | none => .panicked
    | some ep =>
      match cl.CertificateAuthority with
      | none => .panicked
      | some cert =>
        match cert.Data with
        | none => .panicked
        | some d =>
          .ok { c with MasterEndpoint := ep, CertificateAuthorityData := d }

/-- `func (c *ClusterConfig) loadConfig() error` from `pkg/auth/auth.go`
(src/unnamed/part_001 lines 53-84). The second component counts the
DescribeCluster invocations made: the empty-name check on line 54 constructs
`errors.New("ClusterName cannot be empty")` but discards it without
returning, so the remote call is made unconditionally, exactly once, for
every input. On a DescribeCluster error both branches of the type switch
return the wrapped error (the `awserr.Error` branch wraps with the same
message text the plain branch uses). -/
def authLoadConfig (c : ClusterConfig) (describe : DescribeCapability) :
    ExecResult ClusterConfig × Nat :=
  let _discardedEmptyNameErr : Option GoError :=
    if c.ClusterName = "" then some { msg := "ClusterName cannot be empty" }
    else none
  let outcome :=
    match describe c.ClusterName with
    | .error e => .err (errorsWrap e e.msg)
    | .ok result => derefClusterFields c result
  (outcome, 1)

/-- `func (c *ClusterConfig) loadConfig()` from `main.go` (src/main.go lines
87-111): no error return at all. On a DescribeCluster error the wrapped
errors are constructed and discarded, and execution falls through to the
field dereferences on the zero-valued output (whose `Cluster` field is nil),
so the error path panics. The second component again counts DescribeCluster
invocations. -/
def mainLoadConfig (c : ClusterConfig) (describe : DescribeCapability) :
    ExecResult ClusterConfig × Nat :=
  let outcome :=
    match describe c.ClusterName with
    | .error e =>
      let _discardedWrap := errorsWrap e e.msg
      derefClusterFields c { Cluster := none }
    | .ok result => derefClusterFields c result
  (outcome, 1)

/-- `func checkAuth(stsAPI stsiface.STSAPI) (string, error)`: calls
GetCallerIdentity, wraps its error, otherwise dereferences `output.Arn`. -/
def checkAuth (getCallerIdentity : Except GoError sts.GetCallerIdentityOutput) :
    ExecResult String :=
  match getCallerIdentity with
  | .error e =>
    .err (errorsWrap e
      "checking AWS STS access - cannot get role ARN for current session")
  | .ok output =>
    match output.Arn with
    | none => .panicked
    | some arn => .ok arn

/-! ## `clientcmdapi.Config` and the heap of config cells -/

namespace clientcmdapi

/-- `clientcmdapi.Cluster`: the fields the repository populates. -/
structure Cluster where
  Server : String
  CertificateAuthorityData : List Nat
deriving Repr, DecidableEq

/-- `clientcmdapi.Context`: names the cluster entry and the auth entry. -/
structure Context where
  Cluster : String
  AuthInfo : String
deriving Repr, DecidableEq

/-- `clientcmdapi.AuthInfo`: only the `Token` field is ever touched by the
repository; a freshly allocated `&clientcmdapi.AuthInfo{}` has `Token = ""`. -/
structure AuthInfo where
  Token : String
deriving Repr, DecidableEq

/-- `clientcmdapi.Config`: the maps are modelled as association lists (Go map
literals in the source create exactly one entry each). -/
structure Config where
  Clusters : List (String × Cluster)
  Contexts : List (String × Context)
  AuthInfos : List (String × AuthInfo)
  CurrentContext : String
deriving Repr, DecidableEq

end clientcmdapi

/-- Heap of `clientcmdapi.Config` cells; a Go `*clientcmdapi.Config` is an
index into it. -/
abbrev ConfigHeap : Type := List clientcmdapi.Config

/-- `type ClientConfig struct` from `pkg/auth/auth.go`. `Client` is the
`*clientcmdapi.Config` pointer (a heap address); the `sts` capability field is
modelled by explicit arguments to the operations that use it. -/
structure ClientConfig where
  Client : Nat
  ClusterName : String
  ContextName : String
  roleARN : String
deriving Repr, DecidableEq

/-- `func (c *ClusterConfig) NewClientConfig() (*ClientConfig, error)` from
`pkg/auth/auth.go` (src/unnamed/part_001 lines 86-129): resolve the caller
identity, compute `contextName` via `fmt.Sprintf("%s@%s", ...)`, base64-decode
the CA data, then allocate one `clientcmdapi.Config` (a fresh heap cell) with
exactly one cluster entry, one context entry, one empty auth entry and the
current context set. There is no validation of `MasterEndpoint` or of the
decoded trust anchor beyond the base64 decode itself. -/
def NewClientConfig (h : ConfigHeap) (c : ClusterConfig)
    (getCallerIdentity : Except GoError sts.GetCallerIdentityOutput) :
    ExecResult ClientConfig × ConfigHeap :=
  match checkAuth getCallerIdentity with
  | .err e => (.err e, h)
  | .panicked => (.panicked, h)
  | .ok iamRoleARN =>
    let contextName := getUsername iamRoleARN ++ "@" ++ c.ClusterName
    match base64StdDecode c.CertificateAuthorityData with
    | .error e => (.err (errorsWrap e "decoding certificate authority data"), h)
    | .ok data =>
      let cfg : clientcmdapi.Config :=
        { Clusters := [(c.ClusterName,
            { Server := c.MasterEndpoint, CertificateAuthorityData := data })],
          Contexts := [(contextName,
            { Cluster := c.ClusterName, AuthInfo := contextName })],
          AuthInfos := [(contextName, { Token := "" })],
          CurrentContext := contextName }
      (.ok { Client := h.length, ClusterName := c.ClusterName,
             ContextName := contextName, roleARN := iamRoleARN },
       h ++ [cfg])

/-! ## Token minting and `WithEmbeddedToken` -/

/-- Modelled from the spec: the scheme tag of minted tokens. The token
generator (`token.NewGenerator` / `GetWithSTS` of the aws-iam-authenticator
dependency) is not part of this repository's sources; spec section 4.3 fixes
the token format as a fixed scheme tag recognized by the cluster webhook. -/
def v1SchemeTag : String := "k8s-aws-v1."

/-- Modelled from the spec: `gen.GetWithSTS(clusterName, stsAPI)` of the
aws-iam-authenticator dependency, whose body is not under this repository's
sources. Per spec section 4.3 the minted token is the presigned
GetCallerIdentity URL, base64url-encoded without padding, prefixed with the
fixed scheme tag. The presigned URL is taken as its byte list. -/
def getWithSTS (presignedURLBytes : List Nat) : String :=
  v1SchemeTag ++ String.mk (base64RawURLEncode presignedURLBytes)

/-- Write the token into the auth entry keyed by `key`: the effect, at the
`Config` level, of `x := cfg.AuthInfos[key]; x.Token = tok` (the map entry is
a pointer to the `AuthInfo` object that gets mutated). -/
def setToken (l : List (String × clientcmdapi.AuthInfo)) (key tok : String) :
    List (String × clientcmdapi.AuthInfo) :=
  l.map (fun p => if p.1 = key then (p.1, { Token := tok }) else p)

/-- `func (c *ClientConfig) WithEmbeddedToken() (*ClientConfig, error)` from
`pkg/auth/auth.go` (src/unnamed/part_001 lines 180-200):
`clientConfigCopy := *c` is a shallow struct copy (it shares the `Client`
pointer), then the token generator runs (`genTok` bundles the two fallible
steps `token.NewGenerator` and `gen.GetWithSTS`), then the token is written
through `c.Client.AuthInfos[c.ContextName]` — a nil map lookup followed by a
field write would panic — and the copy is returned. -/
def WithEmbeddedToken (h : ConfigHeap) (c : ClientConfig)
    (genTok : Except GoError String) : ExecResult ClientConfig × ConfigHeap :=
  let clientConfigCopy := c
  match genTok with
  | .error e => (.err (errorsWrap e "could not get token"), h)
  | .ok tok =>
    match h.get? c.Client with
    | none => (.panicked, h)
    | some cfg =>
      match cfg.AuthInfos.lookup c.ContextName with
      | none => (.panicked, h)
      | some _ =>
        let cfg2 :=
          { cfg with AuthInfos := setToken cfg.AuthInfos c.ContextName tok }
        (.ok clientConfigCopy,
         h.set c.Client cfg2)

/-- A well-formed DescribeCluster answer with all pointer fields populated. -/
def goodDescribeOutput (ep d : String) : eks.DescribeClusterOutput :=
  { Cluster := some { Endpoint := some ep, CertificateAuthority := some { Data := some d } } }

/-! ## Helper lemmas about `getUsername` -/

theorem getUsername_eq_lastSegment {arn : String} (hm : '/' ∈ arn.toList) :
    getUsername arn = String.mk (lastSegment arn.toList) := by
  unfold getUsername splitSlash
  rw [if_pos ((splitSlashAux_length arn.toList []).mpr hm),
    splitSlashAux_getLastD, if_pos hm]

theorem getUsername_no_slash {arn : String} (hm : '/' ∉ arn.toList) :
    getUsername arn = "iam-root-account" := by
  unfold getUsername splitSlash
  rw [if_neg (fun hlen => hm ((splitSlashAux_length arn.toList []).mp hlen))]

/-! ## Claim theorems -/

/-- C3: for every ARN, `getUsername` returns the final segment after the last
`'/'` when a `'/'` is present, and the fixed fallback literal
`"iam-root-account"` otherwise; in particular the role ARN
`arn:aws:iam::111122223333:role/ci-pipeline` yields `ci-pipeline`. -/
theorem getUsername_spec (arn : String) :
    ('/' ∈ arn.toList → getUsername arn = String.mk (lastSegment arn.toList)) ∧
    ('/' ∉ arn.toList → getUsername arn = "iam-root-account") ∧
    getUsername "arn:aws:iam::111122223333:role/ci-pipeline" = "ci-pipeline" :=
  ⟨fun hm => getUsername_eq_lastSegment hm,
   fun hm => getUsername_no_slash hm,
   by decide⟩

theorem getUsername_spec_witness :
    getUsername "a/b" = String.mk (lastSegment "a/b".toList) ∧
    getUsername "abc" = "iam-root-account" :=
  ⟨(getUsername_spec "a/b").1 (by decide), (getUsername_spec "abc").2.1 (by decide)⟩

/-- C10: for every ARN that ends with the separator `'/'`, `getUsername`
returns the empty string (the last split segment is empty), not the fallback
literal, so the resulting context name has the form `"@<clusterName>"`. -/
theorem getUsername_trailing_slash (arn cn : String)
    (h : ∃ pre, arn.toList = pre ++ ['/']) :
    getUsername arn = "" ∧ getUsername arn ++ "@" ++ cn = "@" ++ cn := by
  obtain ⟨pre, hpre⟩ := h
  have hm : '/' ∈ arn.toList := by rw [hpre]; simp
  have h1 : getUsername arn = "" := by
    rw [getUsername_eq_lastSegment hm, hpre, lastSegment_concat_slash]
  rw [h1]
  exact ⟨rfl, rfl⟩

theorem getUsername_trailing_slash_witness :
    getUsername "arn:aws:iam::111122223333:role/" = "" ∧
    getUsername "arn:aws:iam::111122223333:role/" ++ "@" ++ "prod-eks" =
      "@" ++ "prod-eks" :=
  getUsername_trailing_slash "arn:aws:iam::111122223333:role/" "prod-eks"
    ⟨"arn:aws:iam::111122223333:role".toList, by decide⟩

/-- C1: refuted by the code and settled as a code bug. For an empty cluster
name, `loadConfig` in `pkg/auth/auth.go` constructs the
"ClusterName cannot be empty" error but discards it without returning, so the
describe-cluster capability is still invoked exactly once (never zero calls),
and with a capability that answers successfully the call even returns `ok`
rather than failing with an InvalidName error. -/
theorem loadConfig_emptyName_still_calls (describe : DescribeCapability) :
    (authLoadConfig { ClusterName := "", MasterEndpoint := "", CertificateAuthorityData := "" } describe).2 = 1 ∧
    (∀ ep d,
      describe "" = .ok (goodDescribeOutput ep d) →
      (authLoadConfig { ClusterName := "", MasterEndpoint := "", CertificateAuthorityData := "" } describe).1 =
        .ok { ClusterName := "", MasterEndpoint := ep, CertificateAuthorityData := d }) := by
  refine ⟨rfl, ?_⟩
  intro ep d hd
  simp [authLoadConfig, hd, goodDescribeOutput, derefClusterFields]

theorem loadConfig_emptyName_still_calls_witness :
    (authLoadConfig { ClusterName := "", MasterEndpoint := "", CertificateAuthorityData := "" }
      (fun _ => .ok (goodDescribeOutput "https://api.example" "QUJD"))).1 =
      .ok { ClusterName := "", MasterEndpoint := "https://api.example", CertificateAuthorityData := "QUJD" } :=
  (loadConfig_emptyName_still_calls
    (fun _ => .ok (goodDescribeOutput "https://api.example" "QUJD"))).2
    "https://api.example" "QUJD" rfl

/-- C2: settled as a code bug in the `main.go` duplicate. The `pkg/auth`
`loadConfig` does propagate every describe-cluster error as a non-nil wrapped
error, but the near-identical `loadConfig` in `main.go` constructs the wrapped
error, discards it, returns nothing (it has no error result at all), and then
continues into the field dereferences on the failed result's nil `Cluster`
pointer, which panics. -/
theorem loadConfig_error_propagation (c : ClusterConfig)
    (describe : DescribeCapability) (e : GoError)
    (herr : describe c.ClusterName = .error e) :
    (authLoadConfig c describe).1 = .err (errorsWrap e e.msg) ∧
    (mainLoadConfig c describe).1 = ExecResult.panicked := by
  constructor
  · simp [authLoadConfig, herr]
  · simp [mainLoadConfig, herr, derefClusterFields]

theorem loadConfig_error_propagation_witness :
    (authLoadConfig { ClusterName := "prod-eks", MasterEndpoint := "", CertificateAuthorityData := "" }
      (fun _ => .error { msg := "ResourceNotFoundException" })).1 =
      .err (errorsWrap { msg := "ResourceNotFoundException" } "ResourceNotFoundException") ∧
    (mainLoadConfig { ClusterName := "prod-eks", MasterEndpoint := "", CertificateAuthorityData := "" }
      (fun _ => .error { msg := "ResourceNotFoundException" })).1 =
      ExecResult.panicked :=
  loadConfig_error_propagation _ _ { msg := "ResourceNotFoundException" } rfl

/-- C4: every successful `NewClientConfig` names its context
`"<displayName>@<clusterName>"`, the display name being `getUsername` of the
resolved principal ARN. -/
theorem newClientConfig_contextName (h : ConfigHeap) (c : ClusterConfig)
    (arn : String) (r : ClientConfig) (h2 : ConfigHeap)
    (hok : NewClientConfig h c (.ok { Arn := some arn }) = (.ok r, h2)) :
    r.ContextName = getUsername arn ++ "@" ++ c.ClusterName := by
  unfold NewClientConfig checkAuth at hok
  simp only at hok
  cases hdec : base64StdDecode c.CertificateAuthorityData with
  | error e =>
    rw [hdec] at hok
    simp at hok
  | ok data =>
    rw [hdec] at hok
    simp only [Prod.mk.injEq, ExecResult.ok.injEq] at hok
    rw [← hok.1]

theorem newClientConfig_contextName_witness :
    ({ Client := 0, ClusterName := "prod-eks", ContextName := "lambda-exec@prod-eks",
       roleARN := "arn:aws:iam::111122223333:role/lambda-exec" } : ClientConfig).ContextName =
      getUsername "arn:aws:iam::111122223333:role/lambda-exec" ++ "@" ++ "prod-eks" ∧
    getUsername "arn:aws:iam::111122223333:role/lambda-exec" ++ "@" ++ "prod-eks" = "lambda-exec@prod-eks" :=
  ⟨newClientConfig_contextName []
      { ClusterName := "prod-eks", MasterEndpoint := "https://api.example", CertificateAuthorityData := "" }
      "arn:aws:iam::111122223333:role/lambda-exec"
      { Client := 0, ClusterName := "prod-eks", ContextName := "lambda-exec@prod-eks",
        roleARN := "arn:aws:iam::111122223333:role/lambda-exec" }
      [{ Clusters := [("prod-eks", { Server := "https://api.example", CertificateAuthorityData := [] })],
         Contexts := [("lambda-exec@prod-eks", { Cluster := "prod-eks", AuthInfo := "lambda-exec@prod-eks" })],
         AuthInfos := [("lambda-exec@prod-eks", { Token := "" })],
         CurrentContext := "lambda-exec@prod-eks" }]
      (by decide),
   by decide⟩

/-- C5: every successful `NewClientConfig` allocates a config holding exactly
one cluster entry keyed by the cluster name (endpoint plus base64-decoded
trust anchor), exactly one context entry keyed by the context name and
pointing at that cluster entry and at an auth entry of the same name, exactly
one initially-empty auth entry keyed by the context name, and the current
context set to the context name. -/
theorem newClientConfig_entries (h : ConfigHeap) (c : ClusterConfig)
    (ident : Except GoError sts.GetCallerIdentityOutput)
    (r : ClientConfig) (h2 : ConfigHeap)
    (hok : NewClientConfig h c ident = (.ok r, h2)) :
    ∃ data, base64StdDecode c.CertificateAuthorityData = Except.ok data ∧
      h2.get? r.Client = some
        { Clusters := [(c.ClusterName, { Server := c.MasterEndpoint, CertificateAuthorityData := data })],
          Contexts := [(r.ContextName, { Cluster := c.ClusterName, AuthInfo := r.ContextName })],
          AuthInfos := [(r.ContextName, { Token := "" })],
          CurrentContext := r.ContextName } := by
  unfold NewClientConfig at hok
  cases hca : checkAuth ident with
  | err e =>
    rw [hca] at hok
    simp at hok
  | panicked =>
    rw [hca] at hok
    simp at hok
  | ok arn =>
    rw [hca] at hok
    cases hdec : base64StdDecode c.CertificateAuthorityData with
    | error e =>
      rw [hdec] at hok
      simp at hok
    | ok data =>
      rw [hdec] at hok
      simp only [Prod.mk.injEq, ExecResult.ok.injEq] at hok
      refine ⟨data, rfl, ?_⟩
      rw [← hok.1, ← hok.2]
      simp only
      rw [List.get?_eq_getElem?]
      exact List.getElem?_concat_length h _

theorem newClientConfig_entries_witness :
    ∃ data, base64StdDecode "" = Except.ok data ∧
      ([{ Clusters := [("prod-eks", { Server := "https://api.example", CertificateAuthorityData := [] })],
          Contexts := [("lambda-exec@prod-eks", { Cluster := "prod-eks", AuthInfo := "lambda-exec@prod-eks" })],
          AuthInfos := [("lambda-exec@prod-eks", { Token := "" })],
          CurrentContext := "lambda-exec@prod-eks" }] : ConfigHeap).get? 0 = some
        { Clusters := [("prod-eks", { Server := "https://api.example", CertificateAuthorityData := data })],
          Contexts := [("lambda-exec@prod-eks", { Cluster := "prod-eks", AuthInfo := "lambda-exec@prod-eks" })],
          AuthInfos := [("lambda-exec@prod-eks", { Token := "" })],
          CurrentContext := "lambda-exec@prod-eks" } :=
  newClientConfig_entries []
    { ClusterName := "prod-eks", MasterEndpoint := "https://api.example", CertificateAuthorityData := "" }
    (.ok { Arn := some "arn:aws:iam::111122223333:role/lambda-exec" })
    { Client := 0, ClusterName := "prod-eks", ContextName := "lambda-exec@prod-eks",
      roleARN := "arn:aws:iam::111122223333:role/lambda-exec" }
    [{ Clusters := [("prod-eks", { Server := "https://api.example", CertificateAuthorityData := [] })],
       Contexts := [("lambda-exec@prod-eks", { Cluster := "prod-eks", AuthInfo := "lambda-exec@prod-eks" })],
       AuthInfos := [("lambda-exec@prod-eks", { Token := "" })],
       CurrentContext := "lambda-exec@prod-eks" }]
    (by decide)

/-- C6 counterexample: a descriptor with an empty endpoint (and empty trust
anchor) does not make `NewClientConfig` fail — it succeeds, because the code
contains no completeness check on the descriptor. -/
theorem newClientConfig_emptyEndpoint_succeeds :
    (NewClientConfig [] { ClusterName := "prod-eks", MasterEndpoint := "", CertificateAuthorityData := "" }
        (.ok { Arn := some "arn:aws:iam::111122223333:role/ops" })).1 =
      .ok { Client := 0, ClusterName := "prod-eks", ContextName := "ops@prod-eks",
            roleARN := "arn:aws:iam::111122223333:role/ops" } := by
  decide

/-- C6 amended: `NewClientConfig` performs no completeness validation of the
descriptor: for every descriptor, as soon as the identity check succeeds and
the trust-anchor field decodes as base64 (the empty string does), the call
succeeds — even when the endpoint or the trust anchor is empty. -/
theorem newClientConfig_no_completeness_validation (h : ConfigHeap)
    (c : ClusterConfig) (arn : String) (data : List Nat)
    (hdec : base64StdDecode c.CertificateAuthorityData = Except.ok data) :
    (NewClientConfig h c (.ok { Arn := some arn })).1 =
      .ok { Client := h.length, ClusterName := c.ClusterName,
            ContextName := getUsername arn ++ "@" ++ c.ClusterName, roleARN := arn } := by
  unfold NewClientConfig checkAuth
  simp [hdec]

theorem newClientConfig_no_completeness_validation_witness :
    base64StdDecode "" = Except.ok [] ∧
    (NewClientConfig [] { ClusterName := "dev", MasterEndpoint := "", CertificateAuthorityData := "" }
        (.ok { Arn := some "arn:aws:iam::111122223333:user/bob" })).1 =
      .ok { Client := 0, ClusterName := "dev",
            ContextName := getUsername "arn:aws:iam::111122223333:user/bob" ++ "@" ++ "dev",
            roleARN := "arn:aws:iam::111122223333:user/bob" } :=
  ⟨rfl, newClientConfig_no_completeness_validation []
    { ClusterName := "dev", MasterEndpoint := "", CertificateAuthorityData := "" }
    "arn:aws:iam::111122223333:user/bob" [] rfl⟩

/-- C7 counterexample: a describe-cluster response whose trust-anchor field is
absent makes the loader panic (nil-pointer dereference), not return a
MalformedResponse-style error. -/
theorem loadConfig_missingCA_panics :
    (authLoadConfig { ClusterName := "prod-eks", MasterEndpoint := "", CertificateAuthorityData := "" }
        (fun _ => .ok { Cluster := some { Endpoint := some "https://api.example", CertificateAuthority := none } })).1 =
      ExecResult.panicked := by
  decide

/-- C7 amended: if the trust-anchor field (or its `Data` sub-field) is absent
from the describe-cluster response, the loader panics on the nil dereference
instead of returning an error; if the field is present but not valid base64,
the building path (`NewClientConfig`) returns a wrapped decode error to the
caller without panicking. -/
theorem trustAnchor_malformed_behavior :
    (∀ (c : ClusterConfig) (describe : DescribeCapability) (ep : String),
      describe c.ClusterName = .ok { Cluster := some { Endpoint := some ep, CertificateAuthority := none } } →
      (authLoadConfig c describe).1 = ExecResult.panicked) ∧
    (∀ (c : ClusterConfig) (describe : DescribeCapability) (ep : String),
      describe c.ClusterName = .ok { Cluster := some { Endpoint := some ep, CertificateAuthority := some { Data := none } } } →
      (authLoadConfig c describe).1 = ExecResult.panicked) ∧
    (∀ (h : ConfigHeap) (c : ClusterConfig) (arn : String) (e : GoError),
      base64StdDecode c.CertificateAuthorityData = Except.error e →
      (NewClientConfig h c (.ok { Arn := some arn })).1 =
        .err (errorsWrap e "decoding certificate authority data")) := by
  refine ⟨?_, ?_, ?_⟩
  · intro c describe ep hd
    simp [authLoadConfig, hd, derefClusterFields]
  · intro c describe ep hd
    simp [authLoadConfig, hd, derefClusterFields]
  · intro h c arn e hdec
    unfold NewClientConfig checkAuth
    simp [hdec]

theorem trustAnchor_malformed_behavior_witness :
    (authLoadConfig { ClusterName := "dev", MasterEndpoint := "", CertificateAuthorityData := "" }
        (fun _ => .ok { Cluster := some { Endpoint := some "https://e", CertificateAuthority := some { Data := none } } })).1 =
      ExecResult.panicked ∧
    (NewClientConfig [] { ClusterName := "dev", MasterEndpoint := "https://e", CertificateAuthorityData := "!" }
        (.ok { Arn := some "arn:aws:iam::111122223333:role/ops" })).1 =
      .err (errorsWrap { msg := "illegal base64 data" } "decoding certificate authority data") :=
  ⟨trustAnchor_malformed_behavior.2.1
      { ClusterName := "dev", MasterEndpoint := "", CertificateAuthorityData := "" }
      (fun _ => .ok { Cluster := some { Endpoint := some "https://e", CertificateAuthority := some { Data := none } } })
      "https://e" rfl,
   trustAnchor_malformed_behavior.2.2 []
      { ClusterName := "dev", MasterEndpoint := "https://e", CertificateAuthorityData := "!" }
      "arn:aws:iam::111122223333:role/ops" { msg := "illegal base64 data" } rfl⟩

/-! ## Lookup behaviour of `setToken` -/

theorem lookup_cons_self {β : Type} (k : String) (v : β)
    (rest : List (String × β)) : ((k, v) :: rest).lookup k = some v := by
  simp [List.lookup]

theorem lookup_cons_ne {β : Type} {k pk : String} (h : k ≠ pk) (pv : β)
    (rest : List (String × β)) :
    ((pk, pv) :: rest).lookup k = rest.lookup k := by
  simp [List.lookup, beq_eq_false_iff_ne.mpr h]

theorem setToken_cons (pk : String) (pv : clientcmdapi.AuthInfo)
    (rest : List (String × clientcmdapi.AuthInfo)) (key tok : String) :
    setToken ((pk, pv) :: rest) key tok =
      (if pk = key then (pk, { Token := tok }) else (pk, pv)) ::
        setToken rest key tok := rfl

theorem setToken_lookup_self (l : List (String × clientcmdapi.AuthInfo))
    (key tok : String) (a : clientcmdapi.AuthInfo)
    (hl : l.lookup key = some a) :
    (setToken l key tok).lookup key = some { Token := tok } := by
  induction l with
  | nil => simp [List.lookup] at hl
  | cons p rest ih =>
    rcases p with ⟨pk, pv⟩
    by_cases hk : pk = key
    · subst hk
      rw [setToken_cons, if_pos rfl, lookup_cons_self]
    · rw [lookup_cons_ne (fun he => hk he.symm) pv rest] at hl
      rw [setToken_cons, if_neg hk, lookup_cons_ne (fun he => hk he.symm)]
      exact ih hl

theorem setToken_lookup_other (l : List (String × clientcmdapi.AuthInfo))
    (key tok k : String) (hk : k ≠ key) :
    (setToken l key tok).lookup k = l.lookup k := by
  induction l with
  | nil => rfl
  | cons p rest ih =>
    rcases p with ⟨pk, pv⟩
    rw [setToken_cons]
    by_cases hpk : pk = key
    · subst hpk
      rw [if_pos rfl, lookup_cons_ne hk, lookup_cons_ne hk]
      exact ih
    · rw [if_neg hpk]
      by_cases hkpk : k = pk
      · subst hkpk
        rw [lookup_cons_self, lookup_cons_self]
      · rw [lookup_cons_ne hkpk, lookup_cons_ne hkpk]
        exact ih

/-- C8: every minted bearer token starts with the fixed scheme tag
`"k8s-aws-v1."`, and the remainder after stripping the tag is the
base64url encoding of the presigned URL: every character belongs to the
URL-safe base64 alphabet and no `'='` padding character occurs. -/
theorem minted_token_shape (url : List Nat) (hb : ∀ b ∈ url, b < 256) :
    getWithSTS url = v1SchemeTag ++ String.mk (base64RawURLEncode url) ∧
    (base64RawURLEncode url).all isBase64URLChar = true ∧
    '=' ∉ base64RawURLEncode url := by
  refine ⟨rfl, base64RawURLEncode_all url hb, ?_⟩
  intro hmem
  have hall := base64RawURLEncode_all url hb
  rw [List.all_eq_true] at hall
  exact isBase64URLChar_ne_pad (hall '=' hmem) rfl

theorem minted_token_shape_witness :
    (∀ b ∈ [104, 116, 116, 112], b < 256) ∧
    (getWithSTS [104, 116, 116, 112] =
        v1SchemeTag ++ String.mk (base64RawURLEncode [104, 116, 116, 112]) ∧
      (base64RawURLEncode [104, 116, 116, 112]).all isBase64URLChar = true ∧
      '=' ∉ base64RawURLEncode [104, 116, 116, 112]) :=
  ⟨by decide, minted_token_shape [104, 116, 116, 112] (by decide)⟩

/-- C9: `WithEmbeddedToken` returns a shallow copy of the receiver — the
returned value is field-for-field equal to the receiver, so its `Client`
field aliases the same `clientcmdapi.Config` heap cell — and writing the
minted token mutates exactly the shared auth entry at `ContextName` of that
one cell: reading the auth entry through either the receiver or the returned
copy now yields the token, while every other heap cell, every other config
field and every other auth entry are unchanged. -/
theorem withEmbeddedToken_aliasing (h : ConfigHeap) (c : ClientConfig)
    (tok : String) (cfg : clientcmdapi.Config) (a : clientcmdapi.AuthInfo)
    (hget : h.get? c.Client = some cfg)
    (hlook : cfg.AuthInfos.lookup c.ContextName = some a) :
    (WithEmbeddedToken h c (.ok tok)).1 = .ok c ∧
    (WithEmbeddedToken h c (.ok tok)).2 =
      h.set c.Client { cfg with AuthInfos := setToken cfg.AuthInfos c.ContextName tok } ∧
    (setToken cfg.AuthInfos c.ContextName tok).lookup c.ContextName = some { Token := tok } ∧
    (∀ k, k ≠ c.ContextName →
      (setToken cfg.AuthInfos c.ContextName tok).lookup k = cfg.AuthInfos.lookup k) := by
  refine ⟨?_, ?_, setToken_lookup_self _ _ _ _ hlook,
    fun k hk => setToken_lookup_other _ _ _ _ hk⟩
  · unfold WithEmbeddedToken
    simp only [hget, hlook]
  · unfold WithEmbeddedToken
    simp only [hget, hlook]

theorem withEmbeddedToken_aliasing_witness :
    (WithEmbeddedToken
        [{ Clusters := [("prod-eks", { Server := "https://e", CertificateAuthorityData := [] })],
           Contexts := [("ops@prod-eks", { Cluster := "prod-eks", AuthInfo := "ops@prod-eks" })],
           AuthInfos := [("ops@prod-eks", { Token := "" })],
           CurrentContext := "ops@prod-eks" }]
        { Client := 0, ClusterName := "prod-eks", ContextName := "ops@prod-eks", roleARN := "r" }
        (.ok "k8s-aws-v1.ABCD")).1 =
      .ok { Client := 0, ClusterName := "prod-eks", ContextName := "ops@prod-eks", roleARN := "r" } ∧
    (setToken [("ops@prod-eks", { Token := "" })] "ops@prod-eks" "k8s-aws-v1.ABCD").lookup "ops@prod-eks" =
      some { Token := "k8s-aws-v1.ABCD" } :=
  ⟨(withEmbeddedToken_aliasing
      [{ Clusters := [("prod-eks", { Server := "https://e", CertificateAuthorityData := [] })],
         Contexts := [("ops@prod-eks", { Cluster := "prod-eks", AuthInfo := "ops@prod-eks" })],
         AuthInfos := [("ops@prod-eks", { Token := "" })],
         CurrentContext := "ops@prod-eks" }]
      { Client := 0, ClusterName := "prod-eks", ContextName := "ops@prod-eks", roleARN := "r" }
      "k8s-aws-v1.ABCD"
      { Clusters := [("prod-eks", { Server := "https://e", CertificateAuthorityData := [] })],
        Contexts := [("ops@prod-eks", { Cluster := "prod-eks", AuthInfo := "ops@prod-eks" })],
        AuthInfos := [("ops@prod-eks", { Token := "" })],
        CurrentContext := "ops@prod-eks" }
      { Token := "" } rfl rfl).1,
   (withEmbeddedToken_aliasing
      [{ Clusters := [("prod-eks", { Server := "https://e", CertificateAuthorityData := [] })],
         Contexts := [("ops@prod-eks", { Cluster := "prod-eks", AuthInfo := "ops@prod-eks" })],
         AuthInfos := [("ops@prod-eks", { Token := "" })],
         CurrentContext := "ops@prod-eks" }]
      { Client := 0, ClusterName := "prod-eks", ContextName := "ops@prod-eks", roleARN := "r" }
      "k8s-aws-v1.ABCD"
      { Clusters := [("prod-eks", { Server := "https://e", CertificateAuthorityData := [] })],
        Contexts := [("ops@prod-eks", { Cluster := "prod-eks", AuthInfo := "ops@prod-eks" })],
        AuthInfos := [("ops@prod-eks", { Token := "" })],
        CurrentContext := "ops@prod-eks" }
      { Token := "" } rfl rfl).2.2.1⟩
